import Mathlib

/-
Shallow embedding of the Twitter → Discord monitor in `twitter_monitor.py`
(class `TwitterMonitor`).  Pure data is modelled directly; the external
collaborators (Twitter API, Discord client) are modelled as explicit inputs:
the result of user-id resolution, a fetch oracle mapping the since-id used to
the API outcome, and a send oracle saying whether `channel.send` succeeds for
a given tweet id.  Python `dict` state (`last_tweet_ids`) is an association
list threaded through the functions.
-/

/-- A tweet as consumed by `_check_and_post_tweets`: `tweet['id']`,
`tweet['text']`, `tweet.get('created_at', 'Unknown')`. -/
structure Tweet where
  id : Nat
  text : String
  created_at : String
deriving DecidableEq

/-- The textual content of the Discord `Embed` built in
`_check_and_post_tweets` (lines 270-288). -/
structure Embed where
  description : String
  url : String
  authorName : String
  authorUrl : String
  authorIconUrl : String
  fieldName : String
  fieldValue : String
  footerText : String
  footerIconUrl : String
deriving DecidableEq

/-- One `channel.send(embed=embed)` attempt: the tweet it came from, the
embed sent, and whether the send succeeded (`sent = false` models the
`except` branch at line 293, which only logs). -/
structure Delivery where
  tweet : Tweet
  embed : Embed
  sent : Bool
deriving DecidableEq

/-- Boolean test that `pat` occurs as a prefix of `l` (element-wise). -/
def listPrefixB : List Char → List Char → Bool
  | [], _ => true
  | _ :: _, [] => false
  | a :: as, b :: bs => if a = b then listPrefixB as bs else false

/-- Boolean test that `pat` occurs as a contiguous sublist of the text,
modelling Python's `in` operator on strings. -/
def listContainsB (pat : List Char) : List Char → Bool
  | [] => pat.isEmpty
  | l@(_ :: rest) => listPrefixB pat l || listContainsB pat rest

/-- Models Python `str.lower()` (the tweets handled here are ASCII, where
`Char.toLower` agrees with Python). -/
def pyLower (s : String) : String := ⟨s.data.map Char.toLower⟩

/-- The spoiler filter of line 258: `'#spoilersie' in tweet_text.lower()`. -/
def hasSpoiler (text : String) : Bool :=
  listContainsB "#spoilersie".data (pyLower text).data

/-- The `self.last_tweet_ids` dictionary: handle → last seen tweet id. -/
abbrev Cursors := List (String × Nat)

/-- `self.last_tweet_ids.get(username)`. -/
def getCursor : Cursors → String → Option Nat
  | [], _ => none
  | (k, v) :: rest, u => if k = u then some v else getCursor rest u

/-- `self.last_tweet_ids[username] = tweet_id`. -/
def setCursor : Cursors → String → Nat → Cursors
  | [], u, i => [(u, i)]
  | (k, v) :: rest, u, i =>
      if k = u then (u, i) :: rest else (k, v) :: setCursor rest u i

/-- The permalink built at line 268:
`f'https://twitter.com/{username}/status/{tweet_id}'`. -/
def mkTweetUrl (username : String) (id : Nat) : String :=
  "https://twitter.com/" ++ username ++ "/status/" ++ toString id

/-- The embed construction of lines 270-288. -/
def mkEmbed (username : String) (t : Tweet) : Embed :=
  { description := t.text
    url := mkTweetUrl username t.id
    authorName := "@" ++ username
    authorUrl := "https://twitter.com/" ++ username
    authorIconUrl := "https://abs.twimg.com/icons/apple-touch-icon-192x192.png"
    fieldName := "🔗 Ver en Twitter"
    fieldValue := "[Haz clic aquí para ver el tweet](" ++ mkTweetUrl username t.id ++ ")"
    footerText := "Twitter • " ++ t.created_at
    footerIconUrl := "https://abs.twimg.com/icons/apple-touch-icon-192x192.png" }

/-- Outcome of the `get_users_tweets` call (lines 217-237): a rate-limit
`TweepyException` (429), any other exception, or a successful response
carrying its (possibly empty) list of tweets. -/
inductive FetchOutcome where
  | rateLimited
  | apiError
  | ok (tweets : List Tweet)
deriving DecidableEq

/-- Which branch of `_check_and_post_tweets` returned, mirroring the
distinguishable log lines of the source. -/
inductive CheckOutcome where
  | noUserId
  | rateLimited
  | apiError
  | empty
  | processed
deriving DecidableEq

/-- The per-tweet loop of lines 247-294, already applied to the reversed
batch (the list argument is in processing order).  Each tweet first has the
spoiler filter applied; in both branches the cursor is set to the tweet's id;
non-spoiler tweets then get a `channel.send` attempt whose failure is caught
and only logged. -/
def processTweets (sendOk : Nat → Bool) (username : String) :
    Cursors → List Tweet → Cursors × List Delivery
  | c, [] => (c, [])
  | c, t :: rest =>
      if hasSpoiler t.text then
        processTweets sendOk username (setCursor c username t.id) rest
      else
        let d : Delivery := ⟨t, mkEmbed username t, sendOk t.id⟩
        let r := processTweets sendOk username (setCursor c username t.id) rest
        (r.1, d :: r.2)

/-- Result of one `_check_and_post_tweets` call: the new cursor store, the
send attempts made, the since-id the fetch request carried (`some sinceId`
when a fetch was issued, `none` when user-id resolution failed and no fetch
happened), and the branch taken. -/
structure CheckResult where
  cursors : Cursors
  deliveries : List Delivery
  request : Option (Option Nat)
  outcome : CheckOutcome
deriving DecidableEq

/-- `_check_and_post_tweets` (lines 189-299).  `userId` is the result of
`_get_user_id`; `fetch` maps the `since_id` parameter actually used to the
API outcome; `sendOk` tells whether `channel.send` succeeds per tweet id. -/
def checkAndPostTweets (username : String) (userId : Option String)
    (fetch : Option Nat → FetchOutcome) (sendOk : Nat → Bool)
    (cursors : Cursors) : CheckResult :=
  match userId with
  | none => { cursors := cursors, deliveries := [], request := none,
              outcome := CheckOutcome.noUserId }
  | some _ =>
      let sinceId := getCursor cursors username
      match fetch sinceId with
      | FetchOutcome.rateLimited =>
          { cursors := cursors, deliveries := [], request := some sinceId,
            outcome := CheckOutcome.rateLimited }
      | FetchOutcome.apiError =>
          { cursors := cursors, deliveries := [], request := some sinceId,
            outcome := CheckOutcome.apiError }
      | FetchOutcome.ok ts =>
          if ts.isEmpty then
            { cursors := cursors, deliveries := [], request := some sinceId,
              outcome := CheckOutcome.empty }
          else
            let r := processTweets sendOk username cursors ts.reverse
            { cursors := r.1, deliveries := r.2, request := some sinceId,
              outcome := CheckOutcome.processed }

/-- The external world one monitoring cycle observes: Discord readiness
(`self.client.user`), channel availability in cache (`get_channel`) or by
fetch (`fetch_channel`), and the per-handle Twitter collaborators. -/
structure CycleEnv where
  discordReady : Bool
  channelInCache : Bool
  fetchChannelOk : Bool
  userIdOf : String → Option String
  fetchOf : String → Option Nat → FetchOutcome
  sendOkOf : String → Nat → Bool

/-- The per-handle loop of lines 141-143: each handle is checked in order,
sequentially, threading the cursor store. -/
def runChecks (env : CycleEnv) :
    List String → Cursors → Cursors × List (String × CheckResult)
  | [], c => (c, [])
  | u :: rest, c =>
      let r := checkAndPostTweets u (env.userIdOf u) (env.fetchOf u)
        (env.sendOkOf u) c
      let q := runChecks env rest r.cursors
      (q.1, (u, r) :: q.2)

/-- What one iteration of the `while True` loop (lines 109-152) did:
whether it bailed out on Discord readiness, whether a channel was resolved,
the per-handle check results, the final cursor store, and how many seconds
the iteration sleeps before the next one. -/
structure CycleResult where
  skippedNotReady : Bool
  resolvedChannel : Bool
  checks : List (String × CheckResult)
  cursors : Cursors
  sleep : Int

/-- One iteration of the monitoring loop.  Not ready → `asyncio.sleep(5)`
then `continue` (lines 118-121), which skips the sleep at line 152.
Channel unresolvable → sleep the full interval and continue (line 135).
Otherwise run all checks and sleep the full interval (line 152). -/
def runCycle (interval : Int) (usernames : List String) (env : CycleEnv)
    (c : Cursors) : CycleResult :=
  if env.discordReady = false then
    { skippedNotReady := true, resolvedChannel := false, checks := [],
      cursors := c, sleep := 5 }
  else if env.channelInCache || env.fetchChannelOk then
    let r := runChecks env usernames c
    { skippedNotReady := false, resolvedChannel := true, checks := r.2,
      cursors := r.1, sleep := interval }
  else
    { skippedNotReady := false, resolvedChannel := false, checks := [],
      cursors := c, sleep := interval }

/-- Fuel-bounded unfolding of the infinite `while True` loop: cycle `i`
sees environment `envs i` and the cursor store left by cycle `i - 1`. -/
def runCycles (interval : Int) (us : List String) (envs : Nat → CycleEnv) :
    Nat → Nat → Cursors → List CycleResult
  | 0, _, _ => []
  | Nat.succ fuel, i, c =>
      let r := runCycle interval us (envs i) c
      r :: runCycles interval us envs fuel (i + 1) r.cursors

/-- Models Python `str.strip()`: drop leading and trailing whitespace. -/
def pyStrip (s : String) : String :=
  ⟨((s.data.dropWhile Char.isWhitespace).reverse.dropWhile
      Char.isWhitespace).reverse⟩

/-- Digits of an ASCII-decimal string folded to a number. -/
def digitsToNat (cs : List Char) : Nat :=
  cs.foldl (fun acc c => 10 * acc + (c.toNat - 48)) 0

/-- Models Python `int(s)` on an already-stripped string: an optional sign
followed by one or more ASCII digits; anything else raises `ValueError`,
modelled as `none`. -/
def pyInt (s : String) : Option Int :=
  match s.data with
  | '-' :: rest =>
      if rest ≠ [] ∧ rest.all Char.isDigit then some (-(digitsToNat rest : Int))
      else none
  | '+' :: rest =>
      if rest ≠ [] ∧ rest.all Char.isDigit then some (digitsToNat rest : Int)
      else none
  | rest =>
      if rest ≠ [] ∧ rest.all Char.isDigit then some (digitsToNat rest : Int)
      else none

/-- Python `s.split(',')` on the raw character list. -/
def splitCommaAux (cur : List Char) : List Char → List String
  | [] => [⟨cur.reverse⟩]
  | c :: rest =>
      if c = ',' then ⟨cur.reverse⟩ :: splitCommaAux [] rest
      else splitCommaAux (c :: cur) rest

/-- Line 84: `[u.strip() for u in usernames_str.split(',')]`. -/
def parseUsernames (s : String) : List String :=
  (splitCommaAux [] s.data).map pyStrip

/-- How `monitor_twitter` leaves its startup/validation phase
(lines 60-101): each early `return` branch, or the parsed configuration. -/
inductive StartResult where
  | apiNotConfigured
  | usernamesNotConfigured
  | channelNotConfigured
  | invalidChannelId
  | started (usernames : List String) (checkInterval : Int) (channelId : Int)
deriving DecidableEq

/-- The configuration validation of `monitor_twitter` (lines 60-101), on the
raw environment-variable values (the code applies `.strip()` to each).
An unset variable is the empty string (`os.getenv(..., '')`). -/
def monitorStartup (apiConfigured : Bool)
    (usernamesEnv channelEnv intervalEnv : String) : StartResult :=
  if apiConfigured = false then StartResult.apiNotConfigured
  else
    let usernames_str := pyStrip usernamesEnv
    let channel_id_str := pyStrip channelEnv
    let check_interval_str := pyStrip intervalEnv
    if usernames_str = "" ∨ usernames_str = "usuario1,usuario2,usuario3" then
      StartResult.usernamesNotConfigured
    else if channel_id_str = "" ∨ channel_id_str = "tu_channel_id" then
      StartResult.channelNotConfigured
    else
      let usernames := parseUsernames usernames_str
      let interval := (pyInt check_interval_str).getD 3600
      match pyInt channel_id_str with
      | none => StartResult.invalidChannelId
      | some cid => StartResult.started usernames interval cid

/-- A fuel-bounded run of `monitor_twitter`: either the loop refused to
start (one of the early returns fired, so no cycle ever ran) or the list of
executed cycles. -/
structure MonitorTrace where
  refused : Bool
  cycles : List CycleResult

/-- `monitor_twitter` end to end: validate configuration, then run the loop
(bounded by `fuel`). -/
def monitorTwitterTrace (apiConfigured : Bool)
    (usernamesEnv channelEnv intervalEnv : String)
    (envs : Nat → CycleEnv) (fuel : Nat) : MonitorTrace :=
  match monitorStartup apiConfigured usernamesEnv channelEnv intervalEnv with
  | StartResult.started us interval _ =>
      { refused := false, cycles := runCycles interval us envs fuel 0 [] }
  | _ => { refused := true, cycles := [] }

/-- All fetch requests issued across a trace. -/
def traceRequests (tr : MonitorTrace) : List (Option Nat) :=
  tr.cycles.flatMap fun cy => cy.checks.filterMap fun p => p.2.request

/-- All send attempts made across a trace. -/
def traceDeliveries (tr : MonitorTrace) : List Delivery :=
  tr.cycles.flatMap fun cy => cy.checks.flatMap fun p => p.2.deliveries

/-! ### Supporting lemmas about the per-tweet processing loop -/

theorem getCursor_setCursor_self (c : Cursors) (u : String) (i : Nat) :
    getCursor (setCursor c u i) u = some i := by
  induction c with
  | nil => simp [setCursor, getCursor]
  | cons kv rest ih =>
      obtain ⟨k, v⟩ := kv
      by_cases h : k = u
      · simp [setCursor, getCursor, h]
      · simp [setCursor, getCursor, h, ih]

theorem processTweets_append (s : Nat → Bool) (u : String) (xs ys : List Tweet)
    (c : Cursors) :
    processTweets s u c (xs ++ ys) =
      ((processTweets s u (processTweets s u c xs).1 ys).1,
       (processTweets s u c xs).2 ++
         (processTweets s u (processTweets s u c xs).1 ys).2) := by
  induction xs generalizing c with
  | nil => simp [processTweets]
  | cons t rest ih =>
      by_cases h : hasSpoiler t.text = true
      · simp [processTweets, h, ih]
      · simp [processTweets, h, ih]

theorem processTweets_singleton_fst (s : Nat → Bool) (u : String) (c : Cursors)
    (t : Tweet) : (processTweets s u c [t]).1 = setCursor c u t.id := by
  by_cases h : hasSpoiler t.text = true <;> simp [processTweets, h]

theorem processTweets_concat_lookup (s : Nat → Bool) (u : String) (c : Cursors)
    (xs : List Tweet) (t : Tweet) :
    getCursor (processTweets s u c (xs ++ [t])).1 u = some t.id := by
  simp [processTweets_append, processTweets_singleton_fst,
    getCursor_setCursor_self]

theorem processTweets_deliveries_nonspoiler (s : Nat → Bool) (u : String)
    (ts : List Tweet) :
    ∀ c : Cursors, ∀ d ∈ (processTweets s u c ts).2,
      hasSpoiler d.tweet.text = false := by
  induction ts with
  | nil => intro c d hd; simp [processTweets] at hd
  | cons t rest ih =>
      intro c d hd
      by_cases h : hasSpoiler t.text = true
      · rw [show processTweets s u c (t :: rest) =
            processTweets s u (setCursor c u t.id) rest by
              simp [processTweets, h]] at hd
        exact ih _ d hd
      · simp only [processTweets, h, if_false, Bool.false_eq_true] at hd
        rcases List.mem_cons.mp hd with rfl | hd'
        · simpa using h
        · exact ih _ d hd'

theorem processTweets_tweets_sublist (s : Nat → Bool) (u : String)
    (ts : List Tweet) :
    ∀ c : Cursors,
      List.Sublist ((processTweets s u c ts).2.map Delivery.tweet) ts := by
  induction ts with
  | nil => intro c; simp [processTweets]
  | cons t rest ih =>
      intro c
      by_cases h : hasSpoiler t.text = true
      · simpa [processTweets, h] using
          List.Sublist.cons t (ih (setCursor c u t.id))
      · simpa [processTweets, h] using
          List.Sublist.cons₂ t (ih (setCursor c u t.id))

theorem processTweets_mem_delivery (s : Nat → Bool) (u : String)
    (ts : List Tweet) (t' : Tweet) (hn : hasSpoiler t'.text = false) :
    ∀ c : Cursors, t' ∈ ts →
      ∃ d ∈ (processTweets s u c ts).2, d.tweet = t' ∧ d.sent = s t'.id := by
  induction ts with
  | nil => intro c ht; cases ht
  | cons t rest ih =>
      intro c ht
      by_cases h : hasSpoiler t.text = true
      · have ht' : t' ∈ rest := by
          rcases List.mem_cons.mp ht with rfl | hm
          · rw [hn] at h; cases h
          · exact hm
        obtain ⟨d, hd, hdt, hds⟩ := ih (setCursor c u t.id) ht'
        refine ⟨d, ?_, hdt, hds⟩
        rw [show processTweets s u c (t :: rest) =
          processTweets s u (setCursor c u t.id) rest by
            simp [processTweets, h]]
        exact hd
      · rcases List.mem_cons.mp ht with rfl | hm
        · exact ⟨⟨t', mkEmbed u t', s t'.id⟩,
            by simp [processTweets, h], rfl, rfl⟩
        · obtain ⟨d, hd, hdt, hds⟩ := ih (setCursor c u t.id) hm
          refine ⟨d, ?_, hdt, hds⟩
          simp only [processTweets, h, if_false, Bool.false_eq_true]
          exact List.mem_cons_of_mem _ hd

theorem processTweets_sendOk_fst (s s' : Nat → Bool) (u : String)
    (ts : List Tweet) :
    ∀ c : Cursors, (processTweets s u c ts).1 = (processTweets s' u c ts).1 := by
  induction ts with
  | nil => intro c; rfl
  | cons t rest ih =>
      intro c
      by_cases h : hasSpoiler t.text = true <;> simp [processTweets, h, ih]

theorem processTweets_sendOk_tweets (s s' : Nat → Bool) (u : String)
    (ts : List Tweet) :
    ∀ c : Cursors,
      (processTweets s u c ts).2.map Delivery.tweet =
        (processTweets s' u c ts).2.map Delivery.tweet := by
  induction ts with
  | nil => intro c; rfl
  | cons t rest ih =>
      intro c
      by_cases h : hasSpoiler t.text = true <;> simp [processTweets, h, ih]

/-! ### Supporting lemmas about the per-cycle username loop -/

theorem runChecks_append (env : CycleEnv) (us vs : List String) :
    ∀ c : Cursors,
      runChecks env (us ++ vs) c =
        ((runChecks env vs (runChecks env us c).1).1,
         (runChecks env us c).2 ++
           (runChecks env vs (runChecks env us c).1).2) := by
  induction us with
  | nil => intro c; simp [runChecks]
  | cons u rest ih => intro c; simp [runChecks, ih]

theorem runChecks_fst_names (env : CycleEnv) (us : List String) :
    ∀ c : Cursors, (runChecks env us c).2.map Prod.fst = us := by
  induction us with
  | nil => intro c; rfl
  | cons u rest ih => intro c; simp [runChecks, ih]

/-! ### Claim theorems -/

/-- Claim C1 (counterexample): with handles `["alpha"]`, no prior cursor, and
the fetch returning the batch `[id=5 "hello #spoilersie", id=6 "world"]` in
exactly that order, the claim asserts the cursor ends at 6; in the code the
batch is reversed before processing, so id 6 is processed first and id 5
(the spoiler) last — the cursor for "alpha" ends at 5, not 6. -/
theorem spec_C1_counterexample :
    getCursor (checkAndPostTweets "alpha" (some "uid")
        (fun _ => FetchOutcome.ok
          [⟨5, "hello #spoilersie", "t5"⟩, ⟨6, "world", "t6"⟩])
        (fun _ => true) []).cursors "alpha" = some 5 ∧
    ¬ getCursor (checkAndPostTweets "alpha" (some "uid")
        (fun _ => FetchOutcome.ok
          [⟨5, "hello #spoilersie", "t5"⟩, ⟨6, "world", "t6"⟩])
        (fun _ => true) []).cursors "alpha" = some 6 := by decide

/-- Claim C1 (amended): same input — handles `["alpha"]`, no prior cursor,
fetch returning `[id=5 "hello #spoilersie", id=6 "world"]` in exactly that
order — the check ends with the cursor for "alpha" equal to 5 (the code
reverses the batch, so id 5 is processed last) and performs exactly one
delivery, for id 6, whose message carries the text "world" and a permalink
ending `/alpha/status/6`. -/
theorem spec_C1_amended :
    getCursor (checkAndPostTweets "alpha" (some "uid")
        (fun _ => FetchOutcome.ok
          [⟨5, "hello #spoilersie", "t5"⟩, ⟨6, "world", "t6"⟩])
        (fun _ => true) []).cursors "alpha" = some 5 ∧
    (checkAndPostTweets "alpha" (some "uid")
        (fun _ => FetchOutcome.ok
          [⟨5, "hello #spoilersie", "t5"⟩, ⟨6, "world", "t6"⟩])
        (fun _ => true) []).deliveries.map (fun d => d.tweet.id) = [6] ∧
    (checkAndPostTweets "alpha" (some "uid")
        (fun _ => FetchOutcome.ok
          [⟨5, "hello #spoilersie", "t5"⟩, ⟨6, "world", "t6"⟩])
        (fun _ => true) []).deliveries.map (fun d => d.embed.description)
      = ["world"] ∧
    (checkAndPostTweets "alpha" (some "uid")
        (fun _ => FetchOutcome.ok
          [⟨5, "hello #spoilersie", "t5"⟩, ⟨6, "world", "t6"⟩])
        (fun _ => true) []).deliveries.map (fun d => d.embed.url)
      = ["https://twitter.com/alpha/status/6"] ∧
    (checkAndPostTweets "alpha" (some "uid")
        (fun _ => FetchOutcome.ok
          [⟨5, "hello #spoilersie", "t5"⟩, ⟨6, "world", "t6"⟩])
        (fun _ => true) []).deliveries.map
        (fun d => listPrefixB "/alpha/status/6".data.reverse
          d.embed.url.data.reverse) = [true] := by decide

/-- Claim C3 (counterexample): with a configured interval of 3600 seconds
and Discord not yet connected, the cycle does skip its body (no destination
resolution, no checks), but it sleeps 5 seconds — `asyncio.sleep(5)` followed
by `continue`, which skips the full-interval sleep at line 152 — not the
configured interval as the claim states. -/
theorem spec_C3_counterexample :
    (runCycle 3600 ["alpha"]
        ⟨false, true, true, fun _ => some "uid",
          fun _ _ => FetchOutcome.ok [], fun _ _ => true⟩ []).checks = [] ∧
    (runCycle 3600 ["alpha"]
        ⟨false, true, true, fun _ => some "uid",
          fun _ _ => FetchOutcome.ok [], fun _ _ => true⟩
        []).resolvedChannel = false ∧
    (runCycle 3600 ["alpha"]
        ⟨false, true, true, fun _ => some "uid",
          fun _ _ => FetchOutcome.ok [], fun _ _ => true⟩ []).sleep = 5 ∧
    ¬ (runCycle 3600 ["alpha"]
        ⟨false, true, true, fun _ => some "uid",
          fun _ _ => FetchOutcome.ok [], fun _ _ => true⟩ []).sleep = 3600 := by
  decide

/-- Claim C3 (amended): in every cycle where the chat connection is not yet
established, the monitor loop skips the cycle body (no destination
resolution, no per-account checks, no deliveries, cursor store untouched)
and sleeps a fixed 5-second readiness-poll delay — not the configured
interval — before the next cycle. -/
theorem spec_C3_amended (interval : Int) (us : List String) (env : CycleEnv)
    (c : Cursors) (h : env.discordReady = false) :
    runCycle interval us env c =
      { skippedNotReady := true, resolvedChannel := false, checks := [],
        cursors := c, sleep := 5 } := by
  simp [runCycle, h]

/-- Witness for the amended claim C3 at a concrete not-ready environment. -/
theorem spec_C3_witness :
    (CycleEnv.discordReady
        ⟨false, true, true, fun _ => some "uid",
          fun _ _ => FetchOutcome.ok [], fun _ _ => true⟩ = false) ∧
    runCycle 3600 ["alpha"]
        ⟨false, true, true, fun _ => some "uid",
          fun _ _ => FetchOutcome.ok [], fun _ _ => true⟩ [] =
      { skippedNotReady := true, resolvedChannel := false, checks := [],
        cursors := [], sleep := 5 } :=
  ⟨rfl, spec_C3_amended 3600 ["alpha"] _ [] rfl⟩

/-- Claim C8: the fetch request always carries exactly the stored cursor as
its since-id — `none` (no since-filter) for a handle never seen, the stored
id otherwise (lines 201-222). -/
theorem spec_C8 (u uid : String) (fetch : Option Nat → FetchOutcome)
    (sendOk : Nat → Bool) (c : Cursors) :
    (checkAndPostTweets u (some uid) fetch sendOk c).request =
      some (getCursor c u) := by
  simp only [checkAndPostTweets]
  cases fetch (getCursor c u) with
  | rateLimited => rfl
  | apiError => rfl
  | ok ts =>
      by_cases h : ts.isEmpty = true <;> simp [h]

/-- Claim C9: when the fetch returns an empty result, the check performs
zero deliveries and leaves the cursor store unchanged, and re-running the
check any number of times under the same conditions leaves the store equal
to the state after one (indeed zero) runs. -/
theorem spec_C9 (u uid : String) (fetch : Option Nat → FetchOutcome)
    (sendOk : Nat → Bool) (c : Cursors)
    (hf : fetch (getCursor c u) = FetchOutcome.ok []) :
    (checkAndPostTweets u (some uid) fetch sendOk c).deliveries = [] ∧
    (checkAndPostTweets u (some uid) fetch sendOk c).cursors = c ∧
    ∀ n : Nat,
      (fun cs => (checkAndPostTweets u (some uid) fetch sendOk cs).cursors)^[n]
        c = c := by
  have h1 : checkAndPostTweets u (some uid) fetch sendOk c =
      { cursors := c, deliveries := [], request := some (getCursor c u),
        outcome := CheckOutcome.empty } := by
    simp [checkAndPostTweets, hf]
  refine ⟨by rw [h1], by rw [h1], fun n => Function.iterate_fixed ?_ n⟩
  show (checkAndPostTweets u (some uid) fetch sendOk c).cursors = c
  rw [h1]

/-- Witness for claim C9 at a concrete handle with a stored cursor and an
empty fetch result. -/
theorem spec_C9_witness :
    ((fun _ : Option Nat => FetchOutcome.ok ([] : List Tweet))
        (getCursor [("alpha", 3)] "alpha") = FetchOutcome.ok []) ∧
    ((checkAndPostTweets "alpha" (some "x")
        (fun _ => FetchOutcome.ok []) (fun _ => true)
        [("alpha", 3)]).deliveries = [] ∧
     (checkAndPostTweets "alpha" (some "x")
        (fun _ => FetchOutcome.ok []) (fun _ => true)
        [("alpha", 3)]).cursors = [("alpha", 3)] ∧
     ∀ n : Nat,
       (fun cs => (checkAndPostTweets "alpha" (some "x")
         (fun _ => FetchOutcome.ok []) (fun _ => true) cs).cursors)^[n]
         [("alpha", 3)] = [("alpha", 3)]) :=
  ⟨rfl, spec_C9 "alpha" "x" (fun _ => FetchOutcome.ok []) (fun _ => true)
    [("alpha", 3)] rfl⟩

/-- Claim C2: for every non-empty batch the check processes, given the feed
API's newest-first ordering (ids non-increasing along the returned batch),
the stored cursor for the handle afterwards equals the id of the newest
post of the batch — its first element — and every post in the batch has an
id no larger, so the cursor is never an older id. -/
theorem spec_C2 (u uid : String) (fetch : Option Nat → FetchOutcome)
    (sendOk : Nat → Bool) (c : Cursors) (t0 : Tweet) (ts : List Tweet)
    (hsorted : List.Pairwise (fun a b : Tweet => b.id ≤ a.id) (t0 :: ts))
    (hf : fetch (getCursor c u) = FetchOutcome.ok (t0 :: ts)) :
    getCursor (checkAndPostTweets u (some uid) fetch sendOk c).cursors u =
      some t0.id ∧
    ∀ t ∈ t0 :: ts, t.id ≤ t0.id := by
  constructor
  · simp only [checkAndPostTweets, hf, List.isEmpty_cons, if_false,
      Bool.false_eq_true, List.reverse_cons]
    exact processTweets_concat_lookup sendOk u c ts.reverse t0
  · intro t htm
    rcases List.mem_cons.mp htm with rfl | hm
    · exact Nat.le_refl _
    · exact (List.pairwise_cons.mp hsorted).1 t hm

/-- Witness for claim C2 on the concrete newest-first batch
`[id=7, id=3]` with no prior cursor. -/
theorem spec_C2_witness :
    List.Pairwise (fun a b : Tweet => b.id ≤ a.id)
      [(⟨7, "b", "x"⟩ : Tweet), ⟨3, "a", "y"⟩] ∧
    ((fun _ : Option Nat =>
        FetchOutcome.ok [(⟨7, "b", "x"⟩ : Tweet), ⟨3, "a", "y"⟩])
      (getCursor [] "alpha") =
        FetchOutcome.ok [(⟨7, "b", "x"⟩ : Tweet), ⟨3, "a", "y"⟩]) ∧
    (getCursor (checkAndPostTweets "alpha" (some "uid")
        (fun _ => FetchOutcome.ok [(⟨7, "b", "x"⟩ : Tweet), ⟨3, "a", "y"⟩])
        (fun _ => true) []).cursors "alpha" = some 7 ∧
     ∀ t ∈ [(⟨7, "b", "x"⟩ : Tweet), ⟨3, "a", "y"⟩], t.id ≤ 7) :=
  ⟨by decide, rfl,
    spec_C2 "alpha" "uid" _ (fun _ => true) [] ⟨7, "b", "x"⟩ [⟨3, "a", "y"⟩]
      (by decide) rfl⟩

/-- Claim C4: a post whose text contains `#spoilersie` in any letter case is
never delivered — every send attempt the check makes is for a non-spoiler
post, hence none is for this post — and at its turn in the processing order
the cursor for the handle is set to exactly this post's id. -/
theorem spec_C4 (u uid : String) (fetch : Option Nat → FetchOutcome)
    (sendOk : Nat → Bool) (c : Cursors) (ts : List Tweet) (t : Tweet)
    (hf : fetch (getCursor c u) = FetchOutcome.ok ts)
    (ht : t ∈ ts) (hs : hasSpoiler t.text = true) :
    (∀ d ∈ (checkAndPostTweets u (some uid) fetch sendOk c).deliveries,
        hasSpoiler d.tweet.text = false ∧ d.tweet ≠ t) ∧
    ∀ pre post, ts.reverse = pre ++ t :: post →
      getCursor (processTweets sendOk u c (pre ++ [t])).1 u = some t.id := by
  have hne : ts.isEmpty = false := by
    cases ts with
    | nil => cases ht
    | cons a l => rfl
  constructor
  · intro d hd
    simp only [checkAndPostTweets, hf, hne, if_false, Bool.false_eq_true] at hd
    have hns : hasSpoiler d.tweet.text = false :=
      processTweets_deliveries_nonspoiler sendOk u ts.reverse c d hd
    refine ⟨hns, fun he => ?_⟩
    rw [he, hs] at hns
    cases hns
  · intro pre post _
    exact processTweets_concat_lookup sendOk u c pre t

/-- Witness for claim C4 on a batch holding one mixed-case spoiler post and
one ordinary post. -/
theorem spec_C4_witness :
    ((fun _ : Option Nat => FetchOutcome.ok
        [(⟨9, "A #SpOiLeRsIe b", "t9"⟩ : Tweet), ⟨4, "plain", "t4"⟩])
      (getCursor [] "alpha") = FetchOutcome.ok
        [(⟨9, "A #SpOiLeRsIe b", "t9"⟩ : Tweet), ⟨4, "plain", "t4"⟩]) ∧
    ((⟨9, "A #SpOiLeRsIe b", "t9"⟩ : Tweet) ∈
      [(⟨9, "A #SpOiLeRsIe b", "t9"⟩ : Tweet), ⟨4, "plain", "t4"⟩]) ∧
    hasSpoiler (Tweet.text ⟨9, "A #SpOiLeRsIe b", "t9"⟩) = true ∧
    ((∀ d ∈ (checkAndPostTweets "alpha" (some "uid")
        (fun _ => FetchOutcome.ok
          [(⟨9, "A #SpOiLeRsIe b", "t9"⟩ : Tweet), ⟨4, "plain", "t4"⟩])
        (fun _ => true) []).deliveries,
        hasSpoiler d.tweet.text = false ∧
          d.tweet ≠ (⟨9, "A #SpOiLeRsIe b", "t9"⟩ : Tweet)) ∧
     ∀ pre post,
       ([(⟨9, "A #SpOiLeRsIe b", "t9"⟩ : Tweet),
          ⟨4, "plain", "t4"⟩] : List Tweet).reverse =
           pre ++ (⟨9, "A #SpOiLeRsIe b", "t9"⟩ : Tweet) :: post →
         getCursor (processTweets (fun _ => true) "alpha" []
           (pre ++ [(⟨9, "A #SpOiLeRsIe b", "t9"⟩ : Tweet)])).1 "alpha" =
             some 9) :=
  ⟨rfl, by decide, by decide,
    spec_C4 "alpha" "uid" _ (fun _ => true) [] _ ⟨9, "A #SpOiLeRsIe b", "t9"⟩
      rfl (by decide) (by decide)⟩

/-- Claim C5: given that the fetch returns the batch newest-first (ids
non-increasing), the send attempts of the check occur in non-decreasing
id order, i.e. oldest post first. -/
theorem spec_C5 (u uid : String) (fetch : Option Nat → FetchOutcome)
    (sendOk : Nat → Bool) (c : Cursors) (ts : List Tweet)
    (hsorted : List.Pairwise (fun a b : Tweet => b.id ≤ a.id) ts)
    (hf : fetch (getCursor c u) = FetchOutcome.ok ts) :
    List.Pairwise (fun a b : Nat => a ≤ b)
      ((checkAndPostTweets u (some uid) fetch sendOk c).deliveries.map
        (fun d => d.tweet.id)) := by
  by_cases hni : ts.isEmpty = true
  · simp [checkAndPostTweets, hf, hni]
  · have hne : ts.isEmpty = false := by
      cases h : ts.isEmpty
      · rfl
      · exact absurd h hni
    simp only [checkAndPostTweets, hf, hne, if_false, Bool.false_eq_true]
    have hrev : List.Pairwise (fun a b : Tweet => a.id ≤ b.id) ts.reverse :=
      List.pairwise_reverse.mpr hsorted
    have hsub := processTweets_tweets_sublist sendOk u ts.reverse c
    have hpw : ((processTweets sendOk u c ts.reverse).2.map
        Delivery.tweet).Pairwise (fun a b : Tweet => a.id ≤ b.id) :=
      hrev.sublist hsub
    have hmap : (processTweets sendOk u c ts.reverse).2.map
        (fun d => d.tweet.id) =
        ((processTweets sendOk u c ts.reverse).2.map Delivery.tweet).map
          (fun t => t.id) := by
      simp [List.map_map, Function.comp]
    rw [hmap]
    exact List.pairwise_map.mpr hpw

/-- Witness for claim C5 on the concrete newest-first batch
`[id=8, id=5, id=2]`. -/
theorem spec_C5_witness :
    List.Pairwise (fun a b : Tweet => b.id ≤ a.id)
      [(⟨8, "c", "x"⟩ : Tweet), ⟨5, "b", "y"⟩, ⟨2, "a", "z"⟩] ∧
    ((fun _ : Option Nat => FetchOutcome.ok
        [(⟨8, "c", "x"⟩ : Tweet), ⟨5, "b", "y"⟩, ⟨2, "a", "z"⟩])
      (getCursor [] "alpha") = FetchOutcome.ok
        [(⟨8, "c", "x"⟩ : Tweet), ⟨5, "b", "y"⟩, ⟨2, "a", "z"⟩]) ∧
    List.Pairwise (fun a b : Nat => a ≤ b)
      ((checkAndPostTweets "alpha" (some "uid")
        (fun _ => FetchOutcome.ok
          [(⟨8, "c", "x"⟩ : Tweet), ⟨5, "b", "y"⟩, ⟨2, "a", "z"⟩])
        (fun _ => true) []).deliveries.map (fun d => d.tweet.id)) :=
  ⟨by decide, rfl,
    spec_C5 "alpha" "uid" _ (fun _ => true) []
      [⟨8, "c", "x"⟩, ⟨5, "b", "y"⟩, ⟨2, "a", "z"⟩] (by decide) rfl⟩

/-- Claim C6: when the fetch for an account is rate-limited, its check makes
zero send attempts, returns the cursor store untouched, and reports the
distinguishable rate-limited outcome (the dedicated 429 log branch); and the
cycle's username loop still produces a check entry for every handle, in
configured order, including every handle after the rate-limited one. -/
theorem spec_C6 (env : CycleEnv) (pre post : List String) (a uid : String)
    (c : Cursors) (hid : env.userIdOf a = some uid)
    (hrl : ∀ s, env.fetchOf a s = FetchOutcome.rateLimited) :
    (checkAndPostTweets a (env.userIdOf a) (env.fetchOf a) (env.sendOkOf a)
        (runChecks env pre c).1).deliveries = [] ∧
    (checkAndPostTweets a (env.userIdOf a) (env.fetchOf a) (env.sendOkOf a)
        (runChecks env pre c).1).cursors = (runChecks env pre c).1 ∧
    (checkAndPostTweets a (env.userIdOf a) (env.fetchOf a) (env.sendOkOf a)
        (runChecks env pre c).1).outcome = CheckOutcome.rateLimited ∧
    (runChecks env (pre ++ a :: post) c).2.map Prod.fst = pre ++ a :: post ∧
    (runChecks env (pre ++ a :: post) c).2 =
      (runChecks env pre c).2 ++
        (a, checkAndPostTweets a (env.userIdOf a) (env.fetchOf a)
            (env.sendOkOf a) (runChecks env pre c).1) ::
          (runChecks env post (checkAndPostTweets a (env.userIdOf a)
            (env.fetchOf a) (env.sendOkOf a)
            (runChecks env pre c).1).cursors).2 := by
  refine ⟨?_, ?_, ?_, runChecks_fst_names env _ c, ?_⟩
  · simp [checkAndPostTweets, hid, hrl]
  · simp [checkAndPostTweets, hid, hrl]
  · simp [checkAndPostTweets, hid, hrl]
  · rw [runChecks_append env pre (a :: post) c]
    simp [runChecks]

/-- Witness for claim C6: account "alpha" is rate-limited while "beta" is
still checked later in the same cycle. -/
theorem spec_C6_witness :
    (CycleEnv.userIdOf
        ⟨true, true, true, fun _ => some "uid",
          fun _ _ => FetchOutcome.rateLimited, fun _ _ => true⟩ "alpha" =
      some "uid") ∧
    (∀ s, CycleEnv.fetchOf
        ⟨true, true, true, fun _ => some "uid",
          fun _ _ => FetchOutcome.rateLimited, fun _ _ => true⟩ "alpha" s =
      FetchOutcome.rateLimited) ∧
    ((checkAndPostTweets "alpha" (some "uid")
        (fun _ => FetchOutcome.rateLimited) (fun _ => true)
        (runChecks
          ⟨true, true, true, fun _ => some "uid",
            fun _ _ => FetchOutcome.rateLimited, fun _ _ => true⟩ []
          []).1).deliveries = [] ∧
     (checkAndPostTweets "alpha" (some "uid")
        (fun _ => FetchOutcome.rateLimited) (fun _ => true)
        (runChecks
          ⟨true, true, true, fun _ => some "uid",
            fun _ _ => FetchOutcome.rateLimited, fun _ _ => true⟩ []
          []).1).cursors =
       (runChecks
          ⟨true, true, true, fun _ => some "uid",
            fun _ _ => FetchOutcome.rateLimited, fun _ _ => true⟩ [] []).1 ∧
     (checkAndPostTweets "alpha" (some "uid")
        (fun _ => FetchOutcome.rateLimited) (fun _ => true)
        (runChecks
          ⟨true, true, true, fun _ => some "uid",
            fun _ _ => FetchOutcome.rateLimited, fun _ _ => true⟩ []
          []).1).outcome = CheckOutcome.rateLimited ∧
     (runChecks
        ⟨true, true, true, fun _ => some "uid",
          fun _ _ => FetchOutcome.rateLimited, fun _ _ => true⟩
        ([] ++ "alpha" :: ["beta"]) []).2.map Prod.fst =
       [] ++ "alpha" :: ["beta"] ∧
     (runChecks
        ⟨true, true, true, fun _ => some "uid",
          fun _ _ => FetchOutcome.rateLimited, fun _ _ => true⟩
        ([] ++ "alpha" :: ["beta"]) []).2 =
       (runChecks
          ⟨true, true, true, fun _ => some "uid",
            fun _ _ => FetchOutcome.rateLimited, fun _ _ => true⟩ [] []).2 ++
         ("alpha", checkAndPostTweets "alpha" (some "uid")
             (fun _ => FetchOutcome.rateLimited) (fun _ => true)
             (runChecks
               ⟨true, true, true, fun _ => some "uid",
                 fun _ _ => FetchOutcome.rateLimited, fun _ _ => true⟩ []
               []).1) ::
           (runChecks
             ⟨true, true, true, fun _ => some "uid",
               fun _ _ => FetchOutcome.rateLimited, fun _ _ => true⟩
             ["beta"]
             (checkAndPostTweets "alpha" (some "uid")
               (fun _ => FetchOutcome.rateLimited) (fun _ => true)
               (runChecks
                 ⟨true, true, true, fun _ => some "uid",
                   fun _ _ => FetchOutcome.rateLimited, fun _ _ => true⟩ []
                 []).1).cursors).2) :=
  ⟨rfl, fun _ => rfl,
    spec_C6
      ⟨true, true, true, fun _ => some "uid",
        fun _ _ => FetchOutcome.rateLimited, fun _ _ => true⟩
      [] ["beta"] "alpha" "uid" [] rfl (fun _ => rfl)⟩

/-- Claim C7: if the configured handle list or destination id is absent
(empty after stripping) or equal to its documented placeholder, or the
destination id is non-numeric, `monitor_twitter` returns during validation:
the trace records the refusal, contains no cycles, and hence no fetch
requests and no deliveries. -/
theorem spec_C7 (apiOk : Bool) (uEnv chEnv ivEnv : String)
    (envs : Nat → CycleEnv) (fuel : Nat)
    (h : pyStrip uEnv = "" ∨ pyStrip uEnv = "usuario1,usuario2,usuario3" ∨
      pyStrip chEnv = "" ∨ pyStrip chEnv = "tu_channel_id" ∨
      pyInt (pyStrip chEnv) = none) :
    (monitorTwitterTrace apiOk uEnv chEnv ivEnv envs fuel).refused = true ∧
    (monitorTwitterTrace apiOk uEnv chEnv ivEnv envs fuel).cycles = [] ∧
    traceRequests (monitorTwitterTrace apiOk uEnv chEnv ivEnv envs fuel)
      = [] ∧
    traceDeliveries (monitorTwitterTrace apiOk uEnv chEnv ivEnv envs fuel)
      = [] := by
  have hns : ∀ us iv cid,
      monitorStartup apiOk uEnv chEnv ivEnv ≠
        StartResult.started us iv cid := by
    intro us iv cid hst
    simp only [monitorStartup] at hst
    by_cases hA : apiOk = false
    · rw [if_pos hA] at hst; exact StartResult.noConfusion hst
    · rw [if_neg hA] at hst
      by_cases hB : pyStrip uEnv = "" ∨
          pyStrip uEnv = "usuario1,usuario2,usuario3"
      · rw [if_pos hB] at hst; exact StartResult.noConfusion hst
      · rw [if_neg hB] at hst
        by_cases hC : pyStrip chEnv = "" ∨ pyStrip chEnv = "tu_channel_id"
        · rw [if_pos hC] at hst; exact StartResult.noConfusion hst
        · rw [if_neg hC] at hst
          rcases h with h | h | h | h | h
          · exact hB (Or.inl h)
          · exact hB (Or.inr h)
          · exact hC (Or.inl h)
          · exact hC (Or.inr h)
          · rw [h] at hst; exact StartResult.noConfusion hst
  cases hst : monitorStartup apiOk uEnv chEnv ivEnv with
  | started us iv cid => exact absurd hst (hns us iv cid)
  | apiNotConfigured =>
      simp [monitorTwitterTrace, hst, traceRequests, traceDeliveries]
  | usernamesNotConfigured =>
      simp [monitorTwitterTrace, hst, traceRequests, traceDeliveries]
  | channelNotConfigured =>
      simp [monitorTwitterTrace, hst, traceRequests, traceDeliveries]
  | invalidChannelId =>
      simp [monitorTwitterTrace, hst, traceRequests, traceDeliveries]

/-- Witness for claim C7 with the destination id left at the documented
placeholder `tu_channel_id`. -/
theorem spec_C7_witness :
    (pyStrip "alpha" = "" ∨
      pyStrip "alpha" = "usuario1,usuario2,usuario3" ∨
      pyStrip "tu_channel_id" = "" ∨
      pyStrip "tu_channel_id" = "tu_channel_id" ∨
      pyInt (pyStrip "tu_channel_id") = none) ∧
    ((monitorTwitterTrace true "alpha" "tu_channel_id" "3600"
        (fun _ => ⟨true, true, true, fun _ => some "uid",
          fun _ _ => FetchOutcome.ok [], fun _ _ => true⟩) 3).refused =
      true ∧
     (monitorTwitterTrace true "alpha" "tu_channel_id" "3600"
        (fun _ => ⟨true, true, true, fun _ => some "uid",
          fun _ _ => FetchOutcome.ok [], fun _ _ => true⟩) 3).cycles = [] ∧
     traceRequests (monitorTwitterTrace true "alpha" "tu_channel_id" "3600"
        (fun _ => ⟨true, true, true, fun _ => some "uid",
          fun _ _ => FetchOutcome.ok [], fun _ _ => true⟩) 3) = [] ∧
     traceDeliveries (monitorTwitterTrace true "alpha" "tu_channel_id" "3600"
        (fun _ => ⟨true, true, true, fun _ => some "uid",
          fun _ _ => FetchOutcome.ok [], fun _ _ => true⟩) 3) = []) :=
  ⟨Or.inr (Or.inr (Or.inr (Or.inl (by decide)))),
    spec_C7 true "alpha" "tu_channel_id" "3600"
      (fun _ => ⟨true, true, true, fun _ => some "uid",
        fun _ _ => FetchOutcome.ok [], fun _ _ => true⟩) 3
      (Or.inr (Or.inr (Or.inr (Or.inl (by decide)))))⟩

/-- Claim C10: a send failure for one post in a batch does not stop the
processing of the remaining posts.  The cursor evolution and the sequence of
posts whose delivery is attempted are identical to a run in which every send
succeeds; every post after the failed one still has the cursor advanced to
its id at its turn, and (when it passes the filter) still gets its own send
attempt; and the per-account check still completes normally, reporting the
processed outcome with the full attempt list (the exception is caught at
line 293 and only logged). -/
theorem spec_C10 (u : String) (c : Cursors) (sendOk : Nat → Bool)
    (pre post : List Tweet) (t : Tweet) (hfail : sendOk t.id = false) :
    (processTweets sendOk u c (pre ++ t :: post)).1 =
      (processTweets (fun _ => true) u c (pre ++ t :: post)).1 ∧
    (processTweets sendOk u c (pre ++ t :: post)).2.map Delivery.tweet =
      (processTweets (fun _ => true) u c (pre ++ t :: post)).2.map
        Delivery.tweet ∧
    (∀ t' q r, post = q ++ t' :: r →
      getCursor (processTweets sendOk u c ((pre ++ t :: q) ++ [t'])).1 u =
        some t'.id ∧
      (hasSpoiler t'.text = false →
        ∃ d ∈ (processTweets sendOk u c (pre ++ t :: post)).2,
          d.tweet = t' ∧ d.sent = sendOk t'.id)) ∧
    ∀ (uid : String) (fetch : Option Nat → FetchOutcome),
      fetch (getCursor c u) = FetchOutcome.ok (pre ++ t :: post).reverse →
        (checkAndPostTweets u (some uid) fetch sendOk c).outcome =
          CheckOutcome.processed ∧
        (checkAndPostTweets u (some uid) fetch sendOk c).deliveries =
          (processTweets sendOk u c (pre ++ t :: post)).2 := by
  refine ⟨processTweets_sendOk_fst sendOk _ u _ c,
    processTweets_sendOk_tweets sendOk _ u _ c, ?_, ?_⟩
  · intro t' q r hpost
    refine ⟨processTweets_concat_lookup sendOk u c (pre ++ t :: q) t', ?_⟩
    intro hn
    apply processTweets_mem_delivery sendOk u (pre ++ t :: post) t' hn c
    subst hpost
    simp
  · intro uid fetch hfetch
    have hne : ((pre ++ t :: post).reverse).isEmpty = false := by
      simp
    refine ⟨?_, ?_⟩
    · simp only [checkAndPostTweets, hfetch, hne, if_false,
        Bool.false_eq_true]
    · simp only [checkAndPostTweets, hfetch, hne, if_false,
        Bool.false_eq_true, List.reverse_reverse]

/-- Witness for claim C10: a batch where the send for tweet id 4 fails and
tweet id 6 follows it. -/
theorem spec_C10_witness :
    ((fun i : Nat => i != 4) (Tweet.id ⟨4, "boom", "t4"⟩) = false) ∧
    ((processTweets (fun i : Nat => i != 4) "alpha" []
        ([] ++ (⟨4, "boom", "t4"⟩ : Tweet) :: [⟨6, "okay", "t6"⟩])).1 =
      (processTweets (fun _ => true) "alpha" []
        ([] ++ (⟨4, "boom", "t4"⟩ : Tweet) :: [⟨6, "okay", "t6"⟩])).1 ∧
     (processTweets (fun i : Nat => i != 4) "alpha" []
        ([] ++ (⟨4, "boom", "t4"⟩ : Tweet) :: [⟨6, "okay", "t6"⟩])).2.map
          Delivery.tweet =
      (processTweets (fun _ => true) "alpha" []
        ([] ++ (⟨4, "boom", "t4"⟩ : Tweet) :: [⟨6, "okay", "t6"⟩])).2.map
          Delivery.tweet ∧
     (∀ t' q r,
        ([⟨6, "okay", "t6"⟩] : List Tweet) = q ++ t' :: r →
        getCursor (processTweets (fun i : Nat => i != 4) "alpha" []
          (([] ++ (⟨4, "boom", "t4"⟩ : Tweet) :: q) ++ [t'])).1 "alpha" =
            some t'.id ∧
        (hasSpoiler t'.text = false →
          ∃ d ∈ (processTweets (fun i : Nat => i != 4) "alpha" []
              ([] ++ (⟨4, "boom", "t4"⟩ : Tweet) ::
                [⟨6, "okay", "t6"⟩])).2,
            d.tweet = t' ∧ d.sent = (fun i : Nat => i != 4) t'.id)) ∧
     ∀ (uid : String) (fetch : Option Nat → FetchOutcome),
       fetch (getCursor [] "alpha") =
           FetchOutcome.ok
             ([] ++ (⟨4, "boom", "t4"⟩ : Tweet) ::
               [⟨6, "okay", "t6"⟩]).reverse →
         (checkAndPostTweets "alpha" (some uid) fetch
             (fun i : Nat => i != 4) []).outcome =
           CheckOutcome.processed ∧
         (checkAndPostTweets "alpha" (some uid) fetch
             (fun i : Nat => i != 4) []).deliveries =
           (processTweets (fun i : Nat => i != 4) "alpha" []
             ([] ++ (⟨4, "boom", "t4"⟩ : Tweet) ::
               [⟨6, "okay", "t6"⟩])).2) :=
  ⟨by decide,
    spec_C10 "alpha" [] (fun i : Nat => i != 4) [] [⟨6, "okay", "t6"⟩]
      ⟨4, "boom", "t4"⟩ (by decide)⟩
